import Mathlib

/-!
Verification of the Live Cyber Threat Map dashboard's stream-normalization,
severity-mapping, attack-filtering and map-path logic, shallowly embedded
from the TypeScript sources:

* `src/frontend/src/workers/threatWorker.ts` — raw SSE record → `Attack`
  conversion (`convertSSEToAttack`, named-string `mapSeverity`) and the
  worker's `START_SSE`/`STOP_SSE` message handler;
* `src/frontend/src/data/threatData.ts` — numeric-scale `mapSeverity`;
* `src/Deepcytes-LCTM-1/src/workers/attacksWorker.ts` — numeric-scale
  `mapSeverity` and the `getDirectPath` antimeridian/bounds routine;
* `src/frontend/src/components/BriefingCard.tsx` — the orchestrator's
  `validThreats` filter and the bounded `currentAttacks` / `attackDetails`
  list updates;
* `src/frontend/src/data/maliciousIPs.ts` — `fetchMaliciousIPs` and
  `fetchMaliciousIPsWithRetry`.

JavaScript numbers are modelled as rationals (`ℚ`); every arithmetic
operation appearing in the embedded code (comparison, `+`, `-`, `abs`,
`min`/`max` clamping) is exact on the values involved, so no floating-point
behaviour is lost.  The JavaScript `x || d` idiom on strings and numbers is
modelled by `jsOrString` / `jsOrNum`: `undefined`/`null` become `none`, and
the falsy values `""` and `0` also select the default.
-/

namespace LCTM

/-- Modelled from the spec: the `AttackSeverity` enum of `src/types.ts` is
not under `src/`; the spec enumerates its members as
LOW/MEDIUM/HIGH/CRITICAL/UNKNOWN.  The members are modelled as symbolic
labels (string-valued enum members, hence all truthy in JavaScript). -/
inductive AttackSeverity where
  | LOW
  | MEDIUM
  | HIGH
  | CRITICAL
  | UNKNOWN
  deriving DecidableEq, Repr

/-- Modelled from the spec: the `Country` record of `src/types.ts` (not
under `src/`) — ISO-2 code (possibly "UNK"), display name, latitude,
longitude. -/
structure Country where
  code : String
  name : String
  latitude : ℚ
  longitude : ℚ
  deriving DecidableEq, Repr

/-- Modelled from the spec: the `Attack` record of `src/types.ts` (not
under `src/`) — identifier, source and target `Country`, attack-type tags,
severity, timestamp.  The id is the `crypto.randomUUID()` value passed in
by the caller; the timestamp is kept as the raw string handed to
`new Date(...)`. -/
structure Attack where
  id : String
  source : Country
  target : Country
  type : List String
  severity : AttackSeverity
  timestamp : String
  deriving DecidableEq, Repr

/-- JavaScript `v || d` for a string-typed field: `undefined`/`null`
(`none`) and the falsy empty string select the default `d`. -/
def jsOrString (v : Option String) (d : String) : String :=
  match v with
  | none => d
  | some s => if s = "" then d else s

/-- JavaScript `v || d` for a number-typed field: `undefined`/`null`
(`none`) and the falsy value `0` select the default `d`. -/
def jsOrNum (v : Option ℚ) (d : ℚ) : ℚ :=
  match v with
  | none => d
  | some x => if x = 0 then d else x

/-- Raw SSE record shape consumed by `convertSSEToAttack` in
`src/frontend/src/workers/threatWorker.ts` (interface `RawSSEThreat`).
Fields that the code defends against being absent/null are `Option`s. -/
structure RawSSEThreat where
  sourceCountryCode : Option String
  sourceCountryName : Option String
  sourceLatitude : Option ℚ
  sourceLongitude : Option ℚ
  destCountryCode : Option String
  destCountryName : Option String
  destLatitude : Option ℚ
  destLongitude : Option ℚ
  attackCount : Option ℚ
  attackTypeTags : List String
  severity : Option String
  timestamp : String
  deriving DecidableEq, Repr

/-- JavaScript `String.prototype.toLowerCase()`, modelled characterwise
(ASCII-adequate for the severity labels compared against). -/
def jsToLowerCase (s : String) : String :=
  String.mk (s.data.map Char.toLower)

/-- Named-string severity mapper, `mapSeverity` inside `convertSSEToAttack`
in `src/frontend/src/workers/threatWorker.ts` lines 22-30:
`if (!severity) return UNKNOWN; const s = severity.toLowerCase();` then
compare against "critical"/"high"/"medium"/"low", otherwise UNKNOWN. -/
def mapSeverityThreatWorker (severity : Option String) : AttackSeverity :=
  match severity with
  | none => AttackSeverity.UNKNOWN
  | some sv =>
    if sv = "" then AttackSeverity.UNKNOWN
    else
      let s := jsToLowerCase sv
      if s = "critical" then AttackSeverity.CRITICAL
      else if s = "high" then AttackSeverity.HIGH
      else if s = "medium" then AttackSeverity.MEDIUM
      else if s = "low" then AttackSeverity.LOW
      else AttackSeverity.UNKNOWN

/-- The shared numeric severity table `severityMap` of
`src/frontend/src/data/threatData.ts` lines 23-29 and
`src/Deepcytes-LCTM-1/src/workers/attacksWorker.ts` lines 28-34:
`{"1": LOW, "2": LOW, "3": MEDIUM, "4": HIGH, "5": CRITICAL}`; a key miss
yields `undefined` (`none`). -/
def numericSeverityLookup (s : String) : Option AttackSeverity :=
  if s = "1" then some AttackSeverity.LOW
  else if s = "2" then some AttackSeverity.LOW
  else if s = "3" then some AttackSeverity.MEDIUM
  else if s = "4" then some AttackSeverity.HIGH
  else if s = "5" then some AttackSeverity.CRITICAL
  else none

/-- Numeric severity mapper of
`src/Deepcytes-LCTM-1/src/workers/attacksWorker.ts` lines 27-36:
`severityMap[severity] || AttackSeverity.LOW` (enum members are truthy, so
`||` fires exactly on the `undefined` key miss). -/
def mapSeverityAttacksWorker (severity : String) : AttackSeverity :=
  (numericSeverityLookup severity).getD AttackSeverity.LOW

/-- Numeric severity mapper of `src/frontend/src/data/threatData.ts`
lines 22-31: `severityMap[severity] || AttackSeverity.UNKNOWN`. -/
def mapSeverityThreatData (severity : String) : AttackSeverity :=
  (numericSeverityLookup severity).getD AttackSeverity.UNKNOWN

/-- `convertSSEToAttack` of `src/frontend/src/workers/threatWorker.ts`
lines 20-56.  `genId` stands for the `crypto.randomUUID()` call. -/
def convertSSEToAttack (genId : String) (rawThreat : RawSSEThreat) : Attack :=
  let source : Country :=
    { code := jsOrString rawThreat.sourceCountryCode "UNK"
      name := jsOrString rawThreat.sourceCountryName "Unknown"
      latitude := jsOrNum rawThreat.sourceLatitude 0
      longitude := jsOrNum rawThreat.sourceLongitude 0 }
  let target : Country :=
    { code := jsOrString rawThreat.destCountryCode "UNK"
      name := jsOrString rawThreat.destCountryName "Unknown"
      latitude := jsOrNum rawThreat.destLatitude 0
      longitude := jsOrNum rawThreat.destLongitude 0 }
  { id := genId
    source := source
    target := target
    type := rawThreat.attackTypeTags
    severity := mapSeverityThreatWorker rawThreat.severity
    timestamp := rawThreat.timestamp }

/-- First loop of `normalizeLng` in `getDirectPath`
(`src/Deepcytes-LCTM-1/src/workers/attacksWorker.ts` line 259):
`while (lng > 180) lng -= 360;`. -/
def normLoopDown (lng : ℚ) : ℚ :=
  if h : lng > 180 then normLoopDown (lng - 360) else lng
termination_by (⌈(lng - 180) / 360⌉).toNat
decreasing_by
  have h1 : (lng - 360 - 180) / 360 = (lng - 180) / 360 - 1 := by ring
  have h2 : (0 : ℚ) < (lng - 180) / 360 := by
    apply div_pos <;> [linarith; norm_num]
  have h3 : (1 : ℤ) ≤ ⌈(lng - 180) / 360⌉ := by
    exact_mod_cast Int.ceil_pos.mpr h2
  rw [h1, Int.ceil_sub_one]
  omega

/-- Second loop of `normalizeLng` (line 260): `while (lng < -180) lng += 360;`. -/
def normLoopUp (lng : ℚ) : ℚ :=
  if h : lng < -180 then normLoopUp (lng + 360) else lng
termination_by (⌈(-180 - lng) / 360⌉).toNat
decreasing_by
  have h1 : (-180 - (lng + 360)) / 360 = (-180 - lng) / 360 - 1 := by ring
  have h2 : (0 : ℚ) < (-180 - lng) / 360 := by
    apply div_pos <;> [linarith; norm_num]
  have h3 : (1 : ℤ) ≤ ⌈(-180 - lng) / 360⌉ := by
    exact_mod_cast Int.ceil_pos.mpr h2
  rw [h1, Int.ceil_sub_one]
  omega

/-- `normalizeLng` of `getDirectPath` (lines 258-262): run the two
wrap-around while loops in sequence. -/
def normalizeLng (lng : ℚ) : ℚ :=
  normLoopUp (normLoopDown lng)

/-- `getDirectPath` of
`src/Deepcytes-LCTM-1/src/workers/attacksWorker.ts` lines 251-309,
parametrized by the attack's source/target coordinates.  Returns `none`
where the component returns `null` (path rejected), otherwise the
`{from, to}` pair as `((fromLng, fromLat), (toLng, toLat))`. -/
def getDirectPath (srcLng srcLat tgtLng tgtLat : ℚ) :
    Option ((ℚ × ℚ) × (ℚ × ℚ)) :=
  let fromLng0 := normalizeLng srcLng
  let toLng0 := normalizeLng tgtLng
  -- STRICT visible bounds clamping
  let fromLng := max (-180) (min 180 fromLng0)
  let toLng1 := max (-180) (min 180 toLng0)
  let fromLatClamped := max (-85) (min 85 srcLat)
  let toLatClamped := max (-85) (min 85 tgtLat)
  -- date-line crossing adjustment
  let lngDiff := toLng1 - fromLng
  let toLng :=
    if lngDiff > 180 then toLng1 - 360
    else if lngDiff < -180 then toLng1 + 360
    else toLng1
  -- final bounds check on the adjusted endpoint
  if toLng < -180 ∨ toLng > 180 then none
  else
    let pathLength := |toLng - fromLng|
    let pathHeight := |toLatClamped - fromLatClamped|
    if pathLength > 170 ∨ pathHeight > 160 then none
    else some ((fromLng, fromLatClamped), (toLng, toLatClamped))

/-- Initial value of the `selectedSeverities` state in
`src/frontend/src/components/BriefingCard.tsx` lines 149-156:
`[LOW, MEDIUM, HIGH, CRITICAL]`. -/
def initialSelectedSeverities : List AttackSeverity :=
  [AttackSeverity.LOW, AttackSeverity.MEDIUM,
   AttackSeverity.HIGH, AttackSeverity.CRITICAL]

/-- The `validThreats` filter predicate of the Dashboard worker `onmessage`
handler, `src/frontend/src/components/BriefingCard.tsx` lines 223-232. -/
def isValidThreat (selectedSeverities : List AttackSeverity) (attack : Attack) :
    Bool :=
  selectedSeverities.contains attack.severity
    && attack.source.code != "UNK"
    && attack.target.code != "UNK"
    && decide (attack.source.latitude ≠ 0)
    && decide (attack.source.longitude ≠ 0)
    && decide (attack.target.latitude ≠ 0)
    && decide (attack.target.longitude ≠ 0)

/-- `threats.filter(...)` producing `validThreats`
(`src/frontend/src/components/BriefingCard.tsx` lines 223-232). -/
def validThreats (selectedSeverities : List AttackSeverity)
    (threats : List Attack) : List Attack :=
  threats.filter (isValidThreat selectedSeverities)

/-- JavaScript `list.slice(-n)`: the last `n` elements (the whole list when
it is shorter than `n`). -/
def sliceLast (n : Nat) (l : List Attack) : List Attack :=
  l.drop (l.length - n)

/-- One `THREATS` message processed by the Dashboard worker `onmessage`
handler (`src/frontend/src/components/BriefingCard.tsx` lines 219-247):
filter the incoming batch, and when the result is non-empty append it to
`currentAttacks` keeping `slice(-30)` and to `attackDetails` keeping
`slice(-500)`.  Returns the updated `(currentAttacks, attackDetails)`. -/
def processThreatsMessage (selectedSeverities : List AttackSeverity)
    (currentAttacks attackDetails incoming : List Attack) :
    List Attack × List Attack :=
  let valid := validThreats selectedSeverities incoming
  if 0 < valid.length then
    (sliceLast 30 (currentAttacks ++ valid),
     sliceLast 500 (attackDetails ++ valid))
  else
    (currentAttacks, attackDetails)

/-! ### Stream-worker connection lifecycle

The `self.onmessage` handlers of `src/frontend/src/workers/threatWorker.ts`
lines 59-92 and `src/Deepcytes-LCTM-1/src/workers/attacksWorker.ts` lines
76-103 are identical in their connection handling: `START_SSE` constructs a
`new EventSource(...)` and stores it in `(self as any).eventSource`,
overwriting whatever was stored before without closing it; `STOP_SSE`
closes the stored instance if there is one (closing an already-closed
`EventSource` is a no-op).  The state is modelled by the stored reference's
open/closed status plus a count of connections that were overwritten while
still open (unreachable but not closed). -/

/-- Control messages accepted by the stream worker. -/
inductive WorkerMsg where
  | startSSE
  | stopSSE
  deriving DecidableEq, Repr

/-- Connection state of one stream-worker instance: `stored` is the
`(self as any).eventSource` slot (`none` before the first `START_SSE`,
`some b` a reference whose connection is open iff `b`); `overwrittenOpen`
counts `EventSource`s that were overwritten by a later `START_SSE` while
still open. -/
structure SSEWorkerState where
  stored : Option Bool
  overwrittenOpen : Nat
  deriving DecidableEq, Repr

/-- Worker state before any message: no `eventSource` stored. -/
def initSSEWorkerState : SSEWorkerState :=
  { stored := none, overwrittenOpen := 0 }

/-- One step of the worker `onmessage` handler
(`src/frontend/src/workers/threatWorker.ts` lines 59-92). -/
def workerStep (s : SSEWorkerState) (msg : WorkerMsg) : SSEWorkerState :=
  match msg with
  | WorkerMsg.startSSE =>
    -- `new EventSource(...)` (open) is stored, overwriting the old slot
    { stored := some true
      overwrittenOpen :=
        s.overwrittenOpen + (if s.stored = some true then 1 else 0) }
  | WorkerMsg.stopSSE =>
    -- `if (eventSource) eventSource.close();`
    match s.stored with
    | some _ => { s with stored := some false }
    | none => s

/-- Run the worker handler over a sequence of control messages. -/
def runWorker (msgs : List WorkerMsg) : SSEWorkerState :=
  msgs.foldl workerStep initSSEWorkerState

/-- Number of event-stream connections opened by the worker that are
currently open: the stored one (if open) plus every leaked one. -/
def openConnectionCount (s : SSEWorkerState) : Nat :=
  s.overwrittenOpen + (if s.stored = some true then 1 else 0)

/-- Message sequences in which no two `START_SSE` occur without a
`STOP_SSE` in between; `pending` records whether a `START_SSE` has been
seen since the last `STOP_SSE`. -/
def startsSeparated (pending : Bool) : List WorkerMsg → Bool
  | [] => true
  | WorkerMsg.startSSE :: rest =>
    if pending then false else startsSeparated true rest
  | WorkerMsg.stopSSE :: rest => startsSeparated false rest

/-! ### Malicious-IP fetch and retry

`src/frontend/src/data/maliciousIPs.ts`.  The network is modelled by an
environment `env : Nat → Except String (List RawMaliciousIP)` giving the
outcome of the `i`-th underlying HTTP fetch (a rejected promise is
`Except.error`).  A function that can throw returns `Except`; the number of
executed one-second waits is returned alongside the result so the claim
about inter-attempt delay is statable. -/

/-- Raw record shape of the `/malicious-ips` response
(`src/frontend/src/data/maliciousIPs.ts` lines 66-71). -/
structure RawMaliciousIP where
  ip : String
  latitude : ℚ
  longitude : ℚ
  ipType : String
  deriving DecidableEq, Repr

/-- Normalized malicious-IP record (`MaliciousIP` of `src/types.ts`,
modelled from the spec: identifier, IP string, coordinates, severity).
The id stands for the generated `uuidv4()`; the fetch timestamp is
omitted (it is `new Date()` at call time). -/
structure MaliciousIP where
  id : String
  ip : String
  latitude : ℚ
  longitude : ℚ
  severity : AttackSeverity
  deriving DecidableEq, Repr

/-- Severity mapper inside `convertToMaliciousIP`
(`src/frontend/src/data/maliciousIPs.ts` lines 76-82):
`{malicious: HIGH, default: MEDIUM}[type] || MEDIUM`. -/
def mapSeverityMaliciousIP (ipType : String) : AttackSeverity :=
  if ipType = "malicious" then AttackSeverity.HIGH
  else if ipType = "default" then AttackSeverity.MEDIUM
  else AttackSeverity.MEDIUM

/-- `convertToMaliciousIP` (`src/frontend/src/data/maliciousIPs.ts`
lines 74-92); `genId` stands for `uuidv4()`. -/
def convertToMaliciousIP (genId : String) (rawIP : RawMaliciousIP) :
    MaliciousIP :=
  { id := genId
    ip := rawIP.ip
    latitude := rawIP.latitude
    longitude := rawIP.longitude
    severity := mapSeverityMaliciousIP rawIP.ipType }

/-- `fetchMaliciousIPs` (`src/frontend/src/data/maliciousIPs.ts` lines
95-107): the whole body is wrapped in `try/catch`; any failure of the
underlying fetch is caught, logged, and turned into `return []`.  The
result is therefore always `Except.ok`. -/
def fetchMaliciousIPs (outcome : Except String (List RawMaliciousIP)) :
    Except String (List MaliciousIP) :=
  match outcome with
  | Except.ok rawIPs =>
    Except.ok (rawIPs.map (convertToMaliciousIP ""))
  | Except.error _ => Except.ok []

/-- The `for` loop of `fetchMaliciousIPsWithRetry`
(`src/frontend/src/data/maliciousIPs.ts` lines 113-127), at loop index `i`:
`try { const ips = await fetchMaliciousIPs(); if (ips.length > 0) return
ips; } catch (error) { if (i === maxRetries - 1) throw error; await
delay(1000); }`; falling off the loop returns `[]`.  The second component
counts the executed one-second delays. -/
def retryLoop (env : Nat → Except String (List RawMaliciousIP))
    (maxRetries i : Nat) : Except String (List MaliciousIP) × Nat :=
  if i < maxRetries then
    match fetchMaliciousIPs (env i) with
    | Except.ok ips =>
      if 0 < ips.length then (Except.ok ips, 0)
      else retryLoop env maxRetries (i + 1)
    | Except.error e =>
      if i = maxRetries - 1 then (Except.error e, 0)
      else
        let rest := retryLoop env maxRetries (i + 1)
        (rest.1, rest.2 + 1)
  else
    (Except.ok [], 0)
termination_by maxRetries - i

/-- `fetchMaliciousIPsWithRetry` with its default `maxRetries = 3`
(`src/frontend/src/data/maliciousIPs.ts` lines 110-129). -/
def fetchMaliciousIPsWithRetry
    (env : Nat → Except String (List RawMaliciousIP)) :
    Except String (List MaliciousIP) × Nat :=
  retryLoop env 3 0

/-! ### Lemmas about longitude normalization -/

lemma normLoopDown_eq_self (q : ℚ) (h : ¬ q > 180) : normLoopDown q = q := by
  rw [normLoopDown]
  simp [h]

lemma normLoopUp_eq_self (q : ℚ) (h : ¬ q < -180) : normLoopUp q = q := by
  rw [normLoopUp]
  simp [h]

lemma normalizeLng_eq_self (q : ℚ) (h1 : -180 ≤ q) (h2 : q ≤ 180) :
    normalizeLng q = q := by
  rw [normalizeLng, normLoopDown_eq_self q (by linarith),
    normLoopUp_eq_self q (by linarith)]

lemma normLoopDown_le (q : ℚ) : normLoopDown q ≤ 180 := by
  induction q using normLoopDown.induct with
  | case1 q h ih => rw [normLoopDown, dif_pos h]; exact ih
  | case2 q h => rw [normLoopDown, dif_neg h]; linarith

lemma normLoopUp_ge (q : ℚ) : -180 ≤ normLoopUp q := by
  induction q using normLoopUp.induct with
  | case1 q h ih => rw [normLoopUp, dif_pos h]; exact ih
  | case2 q h => rw [normLoopUp, dif_neg h]; linarith

lemma normLoopUp_le (q : ℚ) (hq : q ≤ 180) : normLoopUp q ≤ 180 := by
  induction q using normLoopUp.induct with
  | case1 q h ih => rw [normLoopUp, dif_pos h]; exact ih (by linarith)
  | case2 q h => rw [normLoopUp, dif_neg h]; exact hq

lemma normalizeLng_mem (q : ℚ) :
    -180 ≤ normalizeLng q ∧ normalizeLng q ≤ 180 :=
  ⟨normLoopUp_ge _, normLoopUp_le _ (normLoopDown_le q)⟩

/-- Claim C1: for every pair of source/target coordinates, `getDirectPath`
either returns no path, or returns a path whose longitude endpoints both
lie within [-180, 180]; and whenever the adjusted longitude span exceeds
170 degrees or the (clamped) latitude span exceeds 160 degrees no path is
returned — equivalently, every returned path has adjusted longitude span
at most 170 and latitude span at most 160. -/
theorem getDirectPath_path_within_bounds
    (srcLng srcLat tgtLng tgtLat : ℚ) (p : (ℚ × ℚ) × (ℚ × ℚ))
    (h : getDirectPath srcLng srcLat tgtLng tgtLat = some p) :
    (-180 ≤ p.1.1 ∧ p.1.1 ≤ 180) ∧ (-180 ≤ p.2.1 ∧ p.2.1 ≤ 180) ∧
    |p.2.1 - p.1.1| ≤ 170 ∧ |p.2.2 - p.1.2| ≤ 160 := by
  simp only [getDirectPath] at h
  have main : ∀ (toLng fromLng fLat tLat : ℚ),
      -180 ≤ fromLng → fromLng ≤ 180 →
      (if toLng < -180 ∨ toLng > 180 then none
       else if |toLng - fromLng| > 170 ∨ |tLat - fLat| > 160 then none
       else some ((fromLng, fLat), (toLng, tLat))) = some p →
      (-180 ≤ p.1.1 ∧ p.1.1 ≤ 180) ∧ (-180 ≤ p.2.1 ∧ p.2.1 ≤ 180) ∧
      |p.2.1 - p.1.1| ≤ 170 ∧ |p.2.2 - p.1.2| ≤ 160 := by
    intro toLng fromLng fLat tLat h1 h2 hh
    split at hh
    · exact absurd hh (by simp)
    · next hB =>
      split at hh
      · exact absurd hh (by simp)
      · next hS =>
        rw [Option.some.injEq] at hh
        subst hh
        push_neg at hB hS
        exact ⟨⟨h1, h2⟩, ⟨hB.1, hB.2⟩, hS.1, hS.2⟩
  split at h <;>
    exact main _ _ _ _ (le_max_left _ _)
      (max_le (by norm_num) (min_le_left _ _)) h

/-- Claim C1 witness: a concrete accepted pair, (10, 30) → (20, 40). -/
theorem getDirectPath_path_within_bounds_witness :
    (-180 ≤ (10 : ℚ) ∧ (10 : ℚ) ≤ 180) ∧
    (-180 ≤ (20 : ℚ) ∧ (20 : ℚ) ≤ 180) ∧
    |(20 : ℚ) - 10| ≤ 170 ∧ |(40 : ℚ) - 30| ≤ 160 :=
  getDirectPath_path_within_bounds 10 30 20 40 ((10, 30), (20, 40))
    (by norm_num [getDirectPath, normalizeLng_eq_self])

/-! ### The end-to-end example record (spec §8) -/

/-- The spec's example raw stream record: `{"Source Country Code":"US",
"Source Latitude":40,"Source Longitude":-100,"Destination Country
Code":"CN","Destination Latitude":35,"Destination Longitude":105,"Attack
Types":["DDoS"],"Severity":"High","Timestamp":"2024-01-01T00:00:00Z"}`
(country-name and attack-count keys absent). -/
def exampleRawThreat : RawSSEThreat :=
  { sourceCountryCode := some "US"
    sourceCountryName := none
    sourceLatitude := some 40
    sourceLongitude := some (-100)
    destCountryCode := some "CN"
    destCountryName := none
    destLatitude := some 35
    destLongitude := some 105
    attackCount := none
    attackTypeTags := ["DDoS"]
    severity := some "High"
    timestamp := "2024-01-01T00:00:00Z" }

/-- Claim C2 counterexample: for the spec's example record, `getDirectPath`
applied to the normalized attack's coordinates returns no path — the
date-line adjustment moves the target longitude from 105 to -255, which
fails the [-180, 180] bounds check before the 170-degree span threshold is
even consulted. -/
theorem examplePath_rejected_by_bounds_check :
    getDirectPath
      (convertSSEToAttack "attack-1" exampleRawThreat).source.longitude
      (convertSSEToAttack "attack-1" exampleRawThreat).source.latitude
      (convertSSEToAttack "attack-1" exampleRawThreat).target.longitude
      (convertSSEToAttack "attack-1" exampleRawThreat).target.latitude
      = none := by
  have h1 : (convertSSEToAttack "attack-1" exampleRawThreat).source.longitude
      = -100 := by decide
  have h2 : (convertSSEToAttack "attack-1" exampleRawThreat).source.latitude
      = 40 := by decide
  have h3 : (convertSSEToAttack "attack-1" exampleRawThreat).target.longitude
      = 105 := by decide
  have h4 : (convertSSEToAttack "attack-1" exampleRawThreat).target.latitude
      = 35 := by decide
  rw [h1, h2, h3, h4]
  norm_num [getDirectPath, normalizeLng_eq_self]

/-- Claim C2 (amended): the example record normalizes to an Attack with
severity HIGH that passes the orchestrator's default validity filter, but
`getDirectPath` returns no drawable path for it: the antimeridian
adjustment sends the target longitude to -255, outside [-180, 180], so the
path is rejected at the bounds check (its 155-degree span never being
compared against the 170-degree threshold). -/
theorem exampleAttack_high_and_valid_but_no_path :
    (convertSSEToAttack "attack-1" exampleRawThreat).severity
        = AttackSeverity.HIGH ∧
    isValidThreat initialSelectedSeverities
        (convertSSEToAttack "attack-1" exampleRawThreat) = true ∧
    getDirectPath (-100) 40 105 35 = none ∧
    (105 : ℚ) - 360 = -255 ∧ ((-255 : ℚ) < -180) ∧ |(-255 : ℚ) - -100| = 155 := by
  refine ⟨by decide, by decide, ?_, by norm_num, by norm_num, by norm_num⟩
  norm_num [getDirectPath, normalizeLng_eq_self]

/-- Claim C3 counterexample: the unrecognized numeric code "0" maps to LOW
in the attacks-worker mapper but to UNKNOWN in the threat-data mapper, so
the two call sites do not share one default. -/
theorem numericSeverityDefault_differs :
    mapSeverityAttacksWorker "0" = AttackSeverity.LOW ∧
    mapSeverityThreatData "0" = AttackSeverity.UNKNOWN ∧
    mapSeverityAttacksWorker "0" ≠ mapSeverityThreatData "0" := by
  decide

/-- Claim C3 (amended): both numeric-scale severity mappers send "5" to
CRITICAL, "4" to HIGH, "3" to MEDIUM, and "1" and "2" to LOW; every
unrecognized numeric code maps to the call site's own default, which
differs between the two call sites — LOW in the attacks worker, UNKNOWN in
the threat-data module. -/
theorem numericSeverity_mapping_table (s : String)
    (h1 : s ≠ "1") (h2 : s ≠ "2") (h3 : s ≠ "3") (h4 : s ≠ "4")
    (h5 : s ≠ "5") :
    (mapSeverityAttacksWorker "5" = AttackSeverity.CRITICAL ∧
     mapSeverityThreatData "5" = AttackSeverity.CRITICAL ∧
     mapSeverityAttacksWorker "4" = AttackSeverity.HIGH ∧
     mapSeverityThreatData "4" = AttackSeverity.HIGH ∧
     mapSeverityAttacksWorker "3" = AttackSeverity.MEDIUM ∧
     mapSeverityThreatData "3" = AttackSeverity.MEDIUM ∧
     mapSeverityAttacksWorker "2" = AttackSeverity.LOW ∧
     mapSeverityThreatData "2" = AttackSeverity.LOW ∧
     mapSeverityAttacksWorker "1" = AttackSeverity.LOW ∧
     mapSeverityThreatData "1" = AttackSeverity.LOW) ∧
    mapSeverityAttacksWorker s = AttackSeverity.LOW ∧
    mapSeverityThreatData s = AttackSeverity.UNKNOWN := by
  refine ⟨by decide, ?_, ?_⟩ <;>
    simp [mapSeverityAttacksWorker, mapSeverityThreatData,
      numericSeverityLookup, h1, h2, h3, h4, h5]

/-- Claim C3 witness: the amended mapping table applied at the
unrecognized code "0". -/
theorem numericSeverity_mapping_table_witness :
    (mapSeverityAttacksWorker "5" = AttackSeverity.CRITICAL ∧
     mapSeverityThreatData "5" = AttackSeverity.CRITICAL ∧
     mapSeverityAttacksWorker "4" = AttackSeverity.HIGH ∧
     mapSeverityThreatData "4" = AttackSeverity.HIGH ∧
     mapSeverityAttacksWorker "3" = AttackSeverity.MEDIUM ∧
     mapSeverityThreatData "3" = AttackSeverity.MEDIUM ∧
     mapSeverityAttacksWorker "2" = AttackSeverity.LOW ∧
     mapSeverityThreatData "2" = AttackSeverity.LOW ∧
     mapSeverityAttacksWorker "1" = AttackSeverity.LOW ∧
     mapSeverityThreatData "1" = AttackSeverity.LOW) ∧
    mapSeverityAttacksWorker "0" = AttackSeverity.LOW ∧
    mapSeverityThreatData "0" = AttackSeverity.UNKNOWN :=
  numericSeverity_mapping_table "0" (by decide) (by decide) (by decide)
    (by decide) (by decide)

/-! ### Malicious-IP retry behaviour -/

lemma fetchMaliciousIPs_isOk (outcome : Except String (List RawMaliciousIP)) :
    ∃ ips, fetchMaliciousIPs outcome = Except.ok ips := by
  cases outcome <;> exact ⟨_, rfl⟩

lemma retryLoop_isOk (env : Nat → Except String (List RawMaliciousIP))
    (maxRetries i : Nat) :
    ∃ ips, (retryLoop env maxRetries i).1 = Except.ok ips := by
  induction i using retryLoop.induct env maxRetries with
  | case1 x hlt ips hfetch hlen =>
    exact ⟨ips, by rw [retryLoop, if_pos hlt, hfetch]; simp [hlen]⟩
  | case2 x hlt ips hfetch hlen ih =>
    rw [retryLoop, if_pos hlt, hfetch]
    simpa [hlen] using ih
  | case3 e hlt hfetch =>
    obtain ⟨ips, hok⟩ := fetchMaliciousIPs_isOk (env (maxRetries - 1))
    rw [hok] at hfetch
    cases hfetch
  | case4 x hlt e hfetch hne ih =>
    obtain ⟨ips, hok⟩ := fetchMaliciousIPs_isOk (env x)
    rw [hok] at hfetch
    cases hfetch
  | case5 x hge =>
    rw [retryLoop, if_neg hge]
    exact ⟨[], rfl⟩

/-- Claim C4: the retry wrapper never lets an error reach its caller, and
in the run where every underlying HTTP fetch fails it returns the empty
list immediately, with zero executed one-second delays and no thrown
error — `fetchMaliciousIPs` catches every failure internally and returns
`[]`, so the wrapper's delay and rethrow branches are unreachable. -/
theorem fetchRetry_never_propagates_error :
    (∀ env, ∃ ips, (fetchMaliciousIPsWithRetry env).1 = Except.ok ips) ∧
    fetchMaliciousIPsWithRetry (fun _ => Except.error "network unreachable")
      = (Except.ok [], 0) := by
  constructor
  · intro env
    exact retryLoop_isOk env 3 0
  · show retryLoop _ 3 0 = _
    simp [retryLoop, fetchMaliciousIPs]

/-! ### Stream-worker connection count -/

/-- Claim C5 counterexample: two consecutive `START_SSE` messages leave
two event-stream connections open — the second `START_SSE` overwrites the
stored `EventSource` without closing it. -/
theorem doubleStart_leaves_two_connections :
    openConnectionCount
      (runWorker [WorkerMsg.startSSE, WorkerMsg.startSSE]) = 2 := by
  decide

lemma runWorker_separated_aux (msgs : List WorkerMsg) :
    ∀ (pending : Bool) (s : SSEWorkerState),
      startsSeparated pending msgs = true →
      s.overwrittenOpen = 0 →
      (pending = false → s.stored ≠ some true) →
      openConnectionCount (msgs.foldl workerStep s) ≤ 1 := by
  induction msgs with
  | nil =>
    intro pending s _ h0 _
    simp only [List.foldl_nil, openConnectionCount, h0, Nat.zero_add]
    split <;> omega
  | cons m rest ih =>
    intro pending s hsep h0 hst
    cases m with
    | startSSE =>
      cases pending with
      | true => simp [startsSeparated] at hsep
      | false =>
        simp only [startsSeparated, if_neg Bool.false_ne_true] at hsep
        simp only [List.foldl_cons, workerStep]
        refine ih true _ hsep ?_ (by simp)
        simp [h0, hst rfl]
    | stopSSE =>
      simp only [startsSeparated] at hsep
      simp only [List.foldl_cons, workerStep]
      refine ih false _ hsep ?_ ?_
      · cases hsd : s.stored <;> simp [hsd, h0]
      · cases hsd : s.stored <;> simp [hsd]

/-- Claim C5 (amended): the worker keeps at most one event-stream
connection open across any control-message sequence in which every
`START_SSE` after the first is separated from the previous `START_SSE` by
a `STOP_SSE`; without that separation the guarantee fails, since a second
consecutive `START_SSE` leaves two connections open. -/
theorem separated_starts_at_most_one_connection (msgs : List WorkerMsg)
    (h : startsSeparated false msgs = true) :
    openConnectionCount (runWorker msgs) ≤ 1 :=
  runWorker_separated_aux msgs false initSSEWorkerState h rfl
    (fun _ => by simp [initSSEWorkerState])

/-- Claim C5 witness: the separated sequence start, stop, start keeps at
most one connection open. -/
theorem separated_starts_at_most_one_connection_witness :
    openConnectionCount
      (runWorker [WorkerMsg.startSSE, WorkerMsg.stopSSE,
        WorkerMsg.startSSE]) ≤ 1 :=
  separated_starts_at_most_one_connection
    [WorkerMsg.startSSE, WorkerMsg.stopSSE, WorkerMsg.startSSE] (by decide)

/-! ### Orchestrator filter and bounded lists -/

lemma not_mem_validThreats {sel : List AttackSeverity} {a : Attack}
    (h : isValidThreat sel a = false) (threats : List Attack) :
    a ∉ validThreats sel threats := by
  simp [validThreats, List.mem_filter, h]

lemma mem_processThreats_fst {sel : List AttackSeverity}
    {current hist incoming : List Attack} {a : Attack}
    (hm : a ∈ (processThreatsMessage sel current hist incoming).1) :
    a ∈ current ∨ a ∈ validThreats sel incoming := by
  simp only [processThreatsMessage, sliceLast] at hm
  split at hm
  · exact List.mem_append.mp (List.drop_subset _ _ hm)
  · exact Or.inl hm

set_option maxRecDepth 8192 in
lemma mem_processThreats_snd {sel : List AttackSeverity}
    {current hist incoming : List Attack} {a : Attack}
    (hm : a ∈ (processThreatsMessage sel current hist incoming).2) :
    a ∈ hist ∨ a ∈ validThreats sel incoming := by
  simp only [processThreatsMessage, sliceLast] at hm
  split at hm
  · exact List.mem_append.mp (List.drop_subset _ _ hm)
  · exact Or.inl hm

lemma isValidThreat_eq_false_of_zero {sel : List AttackSeverity} {a : Attack}
    (h : a.source.latitude = 0 ∨ a.source.longitude = 0 ∨
      a.target.latitude = 0 ∨ a.target.longitude = 0) :
    isValidThreat sel a = false := by
  rcases h with h | h | h | h <;> simp [isValidThreat, h]

/-- Claim C6: an incoming Attack with either endpoint at coordinates
(0,0) or with country code "UNK" is excluded by the orchestrator from both
the rendered active-attack list and the history list (assuming, as for any
exclusion statement, that it was not already present before the batch). -/
theorem invalid_geolocation_excluded (sel : List AttackSeverity)
    (current hist incoming : List Attack) (a : Attack)
    (hbad : (a.source.latitude = 0 ∧ a.source.longitude = 0) ∨
            (a.target.latitude = 0 ∧ a.target.longitude = 0) ∨
            a.source.code = "UNK" ∨ a.target.code = "UNK")
    (hc : a ∉ current) (hh : a ∉ hist) :
    a ∉ (processThreatsMessage sel current hist incoming).1 ∧
    a ∉ (processThreatsMessage sel current hist incoming).2 := by
  have hfalse : isValidThreat sel a = false := by
    rcases hbad with ⟨h, _⟩ | ⟨h, _⟩ | h | h
    · exact isValidThreat_eq_false_of_zero (Or.inl h)
    · exact isValidThreat_eq_false_of_zero (Or.inr (Or.inr (Or.inl h)))
    · simp [isValidThreat, h]
    · simp [isValidThreat, h]
  constructor
  · intro hm
    rcases mem_processThreats_fst hm with h | h
    exacts [hc h, not_mem_validThreats hfalse _ h]
  · intro hm
    rcases mem_processThreats_snd hm with h | h
    exacts [hh h, not_mem_validThreats hfalse _ h]

/-- An attack whose source geolocation is unresolved: coordinates (0,0)
with a resolved-looking code, used to witness the exclusion theorems. -/
def zeroCoordAttack : Attack :=
  { id := "w6"
    source := { code := "RU", name := "Russia", latitude := 0, longitude := 0 }
    target := { code := "US", name := "United States",
                latitude := 38, longitude := -97 }
    type := ["DDoS"]
    severity := AttackSeverity.HIGH
    timestamp := "2024-01-01T00:00:00Z" }

/-- Claim C6 witness: the (0,0)-source attack is excluded from both lists
when it arrives in a batch on empty state. -/
theorem invalid_geolocation_excluded_witness :
    zeroCoordAttack ∉
      (processThreatsMessage initialSelectedSeverities [] [] [zeroCoordAttack]).1 ∧
    zeroCoordAttack ∉
      (processThreatsMessage initialSelectedSeverities [] [] [zeroCoordAttack]).2 :=
  invalid_geolocation_excluded initialSelectedSeverities [] [] [zeroCoordAttack]
    zeroCoordAttack (Or.inl ⟨rfl, rfl⟩) (by simp) (by simp)

/-- Claim C7: a raw stream record whose source-country fields are missing
(absent/null, or the empty string for the string-valued fields) normalizes
to an Attack whose source has code "UNK", name "Unknown" and coordinates
(0,0). -/
theorem missing_source_fields_default (genId : String) (raw : RawSSEThreat)
    (hcode : raw.sourceCountryCode = none ∨ raw.sourceCountryCode = some "")
    (hname : raw.sourceCountryName = none ∨ raw.sourceCountryName = some "")
    (hlat : raw.sourceLatitude = none)
    (hlng : raw.sourceLongitude = none) :
    (convertSSEToAttack genId raw).source.code = "UNK" ∧
    (convertSSEToAttack genId raw).source.name = "Unknown" ∧
    (convertSSEToAttack genId raw).source.latitude = 0 ∧
    (convertSSEToAttack genId raw).source.longitude = 0 := by
  rcases hcode with h1 | h1 <;> rcases hname with h2 | h2 <;>
    simp [convertSSEToAttack, jsOrString, jsOrNum, h1, h2, hlat, hlng]

/-- A raw record with every source-country field absent. -/
def noSourceRaw : RawSSEThreat :=
  { sourceCountryCode := none
    sourceCountryName := none
    sourceLatitude := none
    sourceLongitude := none
    destCountryCode := some "CN"
    destCountryName := some "China"
    destLatitude := some 35
    destLongitude := some 105
    attackCount := none
    attackTypeTags := ["Malware"]
    severity := some "Low"
    timestamp := "2024-01-01T00:00:00Z" }

/-- Claim C7 witness: the all-absent-source record gets the "UNK" /
"Unknown" / (0,0) defaults. -/
theorem missing_source_fields_default_witness :
    (convertSSEToAttack "id-7" noSourceRaw).source.code = "UNK" ∧
    (convertSSEToAttack "id-7" noSourceRaw).source.name = "Unknown" ∧
    (convertSSEToAttack "id-7" noSourceRaw).source.latitude = 0 ∧
    (convertSSEToAttack "id-7" noSourceRaw).source.longitude = 0 :=
  missing_source_fields_default "id-7" noSourceRaw (Or.inl rfl) (Or.inl rfl)
    rfl rfl

lemma sliceLast_length_le (n : Nat) (l : List Attack) :
    (sliceLast n l).length ≤ n := by
  simp only [sliceLast, List.length_drop]
  omega

lemma sliceLast_of_le (n : Nat) (l : List Attack) (h : l.length ≤ n) :
    sliceLast n l = l := by
  simp [sliceLast, Nat.sub_eq_zero_of_le h]

set_option maxRecDepth 8192 in
/-- Claim C8: after processing any incoming batch from within-cap state,
the active map list holds at most 30 attacks and the history list at most
500; each updated list is exactly the maximal capped suffix (`slice(-30)`
resp. `slice(-500)`, oldest evicted first) of the previous list followed by
the accepted new attacks. -/
theorem bounded_attack_lists (sel : List AttackSeverity)
    (current hist incoming : List Attack)
    (hc : current.length ≤ 30) (hh : hist.length ≤ 500) :
    (processThreatsMessage sel current hist incoming).1.length ≤ 30 ∧
    (processThreatsMessage sel current hist incoming).2.length ≤ 500 ∧
    (processThreatsMessage sel current hist incoming).1
      = sliceLast 30 (current ++ validThreats sel incoming) ∧
    (processThreatsMessage sel current hist incoming).2
      = sliceLast 500 (hist ++ validThreats sel incoming) ∧
    List.IsSuffix (processThreatsMessage sel current hist incoming).1
      (current ++ validThreats sel incoming) ∧
    List.IsSuffix (processThreatsMessage sel current hist incoming).2
      (hist ++ validThreats sel incoming) := by
  have hval : processThreatsMessage sel current hist incoming
      = (sliceLast 30 (current ++ validThreats sel incoming),
         sliceLast 500 (hist ++ validThreats sel incoming)) := by
    simp only [processThreatsMessage]
    split
    · rfl
    · next hlen =>
      have hnil : validThreats sel incoming = [] := by
        cases hv : validThreats sel incoming with
        | nil => rfl
        | cons x xs => rw [hv] at hlen; simp at hlen
      rw [hnil, List.append_nil, List.append_nil,
        sliceLast_of_le 30 current hc, sliceLast_of_le 500 hist hh]
  rw [hval]
  exact ⟨sliceLast_length_le _ _, sliceLast_length_le _ _, rfl, rfl,
    List.drop_suffix _ _, List.drop_suffix _ _⟩

set_option maxRecDepth 8192 in
/-- Claim C8 witness: processing a singleton valid batch on empty state
yields capped lists. -/
theorem bounded_attack_lists_witness :
    (processThreatsMessage initialSelectedSeverities [] []
      [zeroCoordAttack]).1.length ≤ 30 ∧
    (processThreatsMessage initialSelectedSeverities [] []
      [zeroCoordAttack]).2.length ≤ 500 ∧
    (processThreatsMessage initialSelectedSeverities [] [] [zeroCoordAttack]).1
      = sliceLast 30
          ([] ++ validThreats initialSelectedSeverities [zeroCoordAttack]) ∧
    (processThreatsMessage initialSelectedSeverities [] [] [zeroCoordAttack]).2
      = sliceLast 500
          ([] ++ validThreats initialSelectedSeverities [zeroCoordAttack]) ∧
    List.IsSuffix
      (processThreatsMessage initialSelectedSeverities [] [] [zeroCoordAttack]).1
      ([] ++ validThreats initialSelectedSeverities [zeroCoordAttack]) ∧
    List.IsSuffix
      (processThreatsMessage initialSelectedSeverities [] [] [zeroCoordAttack]).2
      ([] ++ validThreats initialSelectedSeverities [zeroCoordAttack]) :=
  bounded_attack_lists initialSelectedSeverities [] [] [zeroCoordAttack]
    (by simp) (by simp)

/-- Claim C9: the orchestrator's validity filter is strictly stronger than
the stated (0,0) invariant: an Attack is excluded whenever any single one
of its four endpoint coordinates equals 0, regardless of the other
coordinate or the country codes. -/
theorem zero_coordinate_excluded (sel : List AttackSeverity)
    (incoming : List Attack) (a : Attack)
    (h : a.source.latitude = 0 ∨ a.source.longitude = 0 ∨
      a.target.latitude = 0 ∨ a.target.longitude = 0) :
    a ∉ validThreats sel incoming :=
  not_mem_validThreats (isValidThreat_eq_false_of_zero h) incoming

/-- An attack whose source sits exactly on the prime meridian (longitude
0) with nonzero latitude and fully resolved country codes. -/
def primeMeridianAttack : Attack :=
  { id := "w9"
    source := { code := "GB", name := "United Kingdom",
                latitude := 51, longitude := 0 }
    target := { code := "US", name := "United States",
                latitude := 38, longitude := -97 }
    type := ["Phishing"]
    severity := AttackSeverity.CRITICAL
    timestamp := "2024-01-01T00:00:00Z" }

/-- Claim C9 witness: the prime-meridian attack is filtered out even
though its other coordinates are nonzero and its codes are resolved. -/
theorem zero_coordinate_excluded_witness :
    primeMeridianAttack ∉
      validThreats initialSelectedSeverities [primeMeridianAttack] :=
  zero_coordinate_excluded initialSelectedSeverities [primeMeridianAttack]
    primeMeridianAttack (Or.inr (Or.inl rfl))

/-- Claim C10: the orchestrator's initial severity selection is exactly
[LOW, MEDIUM, HIGH, CRITICAL], so under the default filter an Attack whose
severity normalized to UNKNOWN never enters the valid set and is never
appended to the active-attack list or the history list. -/
theorem unknown_severity_never_appended
    (current hist incoming : List Attack) (a : Attack)
    (hsev : a.severity = AttackSeverity.UNKNOWN)
    (hc : a ∉ current) (hh : a ∉ hist) :
    initialSelectedSeverities
      = [AttackSeverity.LOW, AttackSeverity.MEDIUM,
         AttackSeverity.HIGH, AttackSeverity.CRITICAL] ∧
    a ∉ validThreats initialSelectedSeverities incoming ∧
    a ∉ (processThreatsMessage initialSelectedSeverities
          current hist incoming).1 ∧
    a ∉ (processThreatsMessage initialSelectedSeverities
          current hist incoming).2 := by
  have hfalse : isValidThreat initialSelectedSeverities a = false := by
    simp [isValidThreat, initialSelectedSeverities, hsev]
  refine ⟨rfl, not_mem_validThreats hfalse _, ?_, ?_⟩
  · intro hm
    rcases mem_processThreats_fst hm with h | h
    exacts [hc h, not_mem_validThreats hfalse _ h]
  · intro hm
    rcases mem_processThreats_snd hm with h | h
    exacts [hh h, not_mem_validThreats hfalse _ h]

/-- An attack normalized with UNKNOWN severity but perfectly resolved
geolocation. -/
def unknownSeverityAttack : Attack :=
  { id := "w10"
    source := { code := "DE", name := "Germany",
                latitude := 51, longitude := 9 }
    target := { code := "JP", name := "Japan",
                latitude := 36, longitude := 138 }
    type := ["DDoS"]
    severity := AttackSeverity.UNKNOWN
    timestamp := "2024-01-01T00:00:00Z" }

/-- Claim C10 witness: the UNKNOWN-severity attack is excluded from both
lists under the initial selection. -/
theorem unknown_severity_never_appended_witness :
    initialSelectedSeverities
      = [AttackSeverity.LOW, AttackSeverity.MEDIUM,
         AttackSeverity.HIGH, AttackSeverity.CRITICAL] ∧
    unknownSeverityAttack ∉
      validThreats initialSelectedSeverities [unknownSeverityAttack] ∧
    unknownSeverityAttack ∉
      (processThreatsMessage initialSelectedSeverities [] []
        [unknownSeverityAttack]).1 ∧
    unknownSeverityAttack ∉
      (processThreatsMessage initialSelectedSeverities [] []
        [unknownSeverityAttack]).2 :=
  unknown_severity_never_appended [] [] [unknownSeverityAttack]
    unknownSeverityAttack rfl (by simp) (by simp)

end LCTM
